import Mathlib

/-!
Shallow embedding of the bharatabhiyan backend (Django/DRF) for verification.

The embedding translates, from the repository source:
  * `accounts/models.py`   — the `User` model (role/active flags, defaults);
  * `apis/serializers.py`  — `UserRegistrationSerializer.create`;
  * `providers/models.py`  — `ServiceProvider`, `ProviderSubscription` and the
                             taxonomy models (`ServiceCategory`, `ServiceType`);
  * `apis/provider_serializers.py` — the create/update serializers and the
                             subscription-create validator;
  * `apis/provider_views.py` — `submit_provider_application`,
                             `create_subscription_payment`,
                             `subscription_payment_callback`;
  * `apis/views.py`        — `payment_callback`, `verify_provider_service`;
  * `providers/admin.py`   — `ServiceProviderAdmin.reject_providers`.

Database tables are modelled as lists of records; Django's
`filter(...).first()` followed by `save()` is modelled by updating the first
list element satisfying the filter predicate.  HMAC-SHA256 is abstracted as a
function parameter `mac : String → String → String` (the code only compares
the recomputed digest with the posted one for string equality, so nothing of
the claims depends on the digest function itself).  Monetary amounts are
modelled as rationals.  `datetime` values carry a calendar date; `dateutil`'s
`relativedelta(months=k)` is embedded with its documented semantics
(month arithmetic with day-of-month clamped to the target month's length).
-/

namespace Bharat

/-- Verification status enum of `ServiceProvider`
(`providers/models.py`, `VERIFICATION_STATUS_CHOICES`). -/
inductive VerificationStatus where
  | DRAFT
  | PENDING_VERIFICATION
  | VERIFIED
  | REJECTED
deriving DecidableEq, Repr

/-- Subscription status enum of `ProviderSubscription`
(`providers/models.py`, `STATUS_CHOICES`). -/
inductive SubscriptionStatus where
  | PENDING
  | ACTIVE
  | EXPIRED
  | CANCELLED
deriving DecidableEq, Repr

/-- Plan enum of `ProviderSubscription` (`providers/models.py`, `PLAN_CHOICES`). -/
inductive PlanType where
  | MONTHLY
  | YEARLY
deriving DecidableEq, Repr

/-- Payment status enum of `RegistrationPayment`
(`accounts/models.py`, `STATUS_CHOICES`). -/
inductive PaymentStatus where
  | PENDING
  | SUCCESS
  | FAILED
deriving DecidableEq, Repr

/-- The `User` model of `accounts/models.py` (the fields the claims touch).
`phone`/`email` are nullable unique columns, `captain_code` nullable. -/
structure User where
  id : Nat
  phone : Option String
  email : Option String
  name : String
  is_admin : Bool
  is_captain : Bool

  is_user : Bool
  captain_code : Option String
  admin_verified : Bool
  is_active : Bool
deriving DecidableEq, Repr

/-- Default of the active flag, from accounts/models.py line 45:
`is_active = models.BooleanField(default=True)`.
This is the value a freshly constructed `User` row receives when no caller
sets the field explicitly. -/
def USER_IS_ACTIVE_DEFAULT : Bool := true

/-- Input accepted by `UserRegistrationSerializer` (`apis/serializers.py`):
`phone`, `email`, `name`, `password`, `is_captain`, `is_provider`. -/
structure RegistrationData where
  phone : Option String
  email : Option String
  name : String
  password : Option String
  is_captain : Bool
  is_provider : Bool
deriving Repr

/-- Python truthiness of an optional string (empty string and `None` are falsy). -/
def strTruthy : Option String → Bool
  | none => false
  | some s => s ≠ ""

/-- Embedding of `UserRegistrationSerializer.create` (`apis/serializers.py` lines 51-88):
pops password / role flags, normalises blank identifiers to `None`, sets
`is_captain`, `is_user = not (is_captain or is_provider)`, generates a captain
code for captains and sets `admin_verified` accordingly, then calls
`User.objects.create(**validated_data)`.  The create never touches
`is_active`, so the row gets the model default.  `freshId` stands for the
database-assigned primary key and `freshCode` for
`generate_unique_captain_code()`. -/
def registrationCreate (freshId : Nat) (freshCode : String)
    (d : RegistrationData) : User :=
  { id := freshId
    phone := if strTruthy d.phone then d.phone.map String.trim else none
    email := if strTruthy d.email then d.email.map String.trim else none
    name := d.name
    is_admin := false
    is_captain := d.is_captain
    is_user := !(d.is_captain || d.is_provider)
    captain_code := if d.is_captain then some freshCode else none
    admin_verified := if d.is_captain then false else true
    is_active := USER_IS_ACTIVE_DEFAULT }

/-- The `ServiceProvider` model of `providers/models.py` (fields relevant to
the workflow claims).  File/image columns are modelled as optional strings
(the stored path); the three taxonomy relations are many-to-many id sets,
modelled as lists of ids; `city` is a nullable foreign key. -/
structure ServiceProvider where
  user_id : Nat
  whatsapp_number : String
  business_name : String
  experience : String
  business_address : String
  city : Option Nat
  pincode : String
  service_categories : List Nat
  service_types : List Nat
  service_description : String
  service_areas : List Nat
  aadhaar_front : Option String
  aadhaar_back : Option String
  address_proof_type : Option String
  address_proof : Option String
  profile_photo : Option String
  skill_certificate : Option String
  verification_status : VerificationStatus
  verified_by : Option Nat
  verification_date : Option Nat
  rejection_reason : String
  submitted_at : Option Nat
deriving DecidableEq, Repr

/-- Writable payload of `ServiceProviderCreateSerializer` /
`ServiceProviderUpdateSerializer` (`apis/provider_serializers.py`): scalar
fields plus the write-only id lists `service_category`, `service_type`,
`service_areas`.  In the update serializer every field is optional
(`partial=True` in both views), hence the `Option`s. -/
structure ProfileData where
  whatsapp_number : Option String
  business_name : Option String
  experience : Option String
  business_address : Option String
  city : Option Nat
  pincode : Option String
  service_category : Option (List Nat)
  service_type : Option (List Nat)
  service_description : Option String
  service_areas : Option (List Nat)
  aadhaar_front : Option String
  aadhaar_back : Option String
  address_proof_type : Option String
  address_proof : Option String
  profile_photo : Option String
  skill_certificate : Option String
deriving Repr

/-- The `setattr(instance, attr, value)` loop of
`ServiceProviderUpdateSerializer.update` (lines 124-126): only the keys
present in `validated_data` overwrite the instance's scalar fields. -/
def applyScalarUpdates (p : ServiceProvider) (d : ProfileData) : ServiceProvider :=
  { p with
    whatsapp_number := d.whatsapp_number.getD p.whatsapp_number
    business_name := d.business_name.getD p.business_name
    experience := d.experience.getD p.experience
    business_address := d.business_address.getD p.business_address
    city := match d.city with | some c => some c | none => p.city
    pincode := d.pincode.getD p.pincode
    service_description := d.service_description.getD p.service_description
    aadhaar_front := match d.aadhaar_front with
      | some f => some f | none => p.aadhaar_front
    aadhaar_back := match d.aadhaar_back with
      | some f => some f | none => p.aadhaar_back
    address_proof_type := match d.address_proof_type with
      | some f => some f | none => p.address_proof_type
    address_proof := match d.address_proof with
      | some f => some f | none => p.address_proof
    profile_photo := match d.profile_photo with
      | some f => some f | none => p.profile_photo
    skill_certificate := match d.skill_certificate with
      | some f => some f | none => p.skill_certificate }

/-- Embedding of `ServiceProviderUpdateSerializer.update` (`apis/provider_serializers.py`
lines 118-154): pops the three id lists, applies the scalar `setattr` loop,
`.set(...)`s each present id list, then unconditionally resets
`verification_status = 'DRAFT'`, `rejection_reason = ''`,
`verified_by = None` and saves.  No check of the current
`verification_status` appears anywhere on this path (nor in the dispatching
views `create_provider_profile` / `get_provider_profile`). -/
def updateProfile (p : ServiceProvider) (d : ProfileData) : ServiceProvider :=
  let p := applyScalarUpdates p d
  let p := { p with
    service_categories := d.service_category.getD p.service_categories
    service_types := d.service_type.getD p.service_types
    service_areas := d.service_areas.getD p.service_areas }
  { p with
    verification_status := .DRAFT
    rejection_reason := ""
    verified_by := none }

/-- Outcome of the create-or-update profile POST
(`get_provider_profile`, `apis/provider_views.py` lines 302-399).
`validationFailed` is the 400 "Validation failed" response carrying
`serializer.errors`, modelled as the list of offending field names. -/
inductive EditResult where
  | unauthenticated
  | accepted (p : ServiceProvider)
  | validationFailed (missing : List String)
deriving DecidableEq, Repr

/-- POST branch of `get_provider_profile` for a user that already has a
provider profile: the view authenticates, rebuilds the M2M lists from the
form data and hands the instance to `ServiceProviderUpdateSerializer` with
`partial=True`.  The current `verification_status` of the profile is never
consulted: every serializer-valid request is accepted and saved. -/
def editProfileView (authenticated : Bool) (p : ServiceProvider)
    (d : ProfileData) : EditResult :=
  if !authenticated then .unauthenticated
  else .accepted (updateProfile p d)

/-- Embedding of `ServiceProviderCreateSerializer.create` (`apis/provider_serializers.py`
lines 57-83): creates the row with `verification_status='DRAFT'` and sets the
three many-to-many relations from the submitted id lists.  No taxonomy
consistency or active-flag validation is performed anywhere on this path:
the id lists are stored exactly as submitted. -/
def createProfile (userId : Nat) (categories types areas : List Nat)
    (d : ProfileData) : ServiceProvider :=
  { user_id := userId
    whatsapp_number := d.whatsapp_number.getD ""
    business_name := d.business_name.getD ""
    experience := d.experience.getD ""
    business_address := d.business_address.getD ""
    city := d.city
    pincode := d.pincode.getD ""
    service_categories := categories
    service_types := types
    service_description := d.service_description.getD ""
    service_areas := areas
    aadhaar_front := d.aadhaar_front
    aadhaar_back := d.aadhaar_back
    address_proof_type := d.address_proof_type
    address_proof := d.address_proof
    profile_photo := d.profile_photo
    skill_certificate := d.skill_certificate
    verification_status := .DRAFT
    verified_by := none
    verification_date := none
    rejection_reason := ""
    submitted_at := none }

/-- A row of the `ServiceType` table (`providers/models.py`): id, parent
category id, active flag. -/
structure ServiceTypeRow where
  id : Nat
  category_id : Nat
  is_active : Bool
deriving DecidableEq, Repr

/-- A row of the `ServiceCategory` table (`providers/models.py`). -/
structure ServiceCategoryRow where
  id : Nat
  is_active : Bool
deriving DecidableEq, Repr

/-- Declarations posted to `submit_provider_application`, validated by
`ServiceProviderSubmitSerializer` (`apis/provider_serializers.py` 170-179). -/
structure SubmitDecls where
  confirm_declaration : Bool
  accept_terms : Bool
  consent_kyc : Bool
deriving DecidableEq, Repr

/-- Validation of `ServiceProviderSubmitSerializer`: all three declarations
must be truthy. -/
def declsValid (d : SubmitDecls) : Bool :=
  d.confirm_declaration && d.accept_terms && d.consent_kyc

/-- Python `getattr(provider, field)` restricted to truthiness, for the field
names used by the submit view's required-field loop.  Returns `some b` with
`b` the Python truthiness of the attribute, and `none` when the model has no
attribute of that name (Python raises `AttributeError`).  The `ServiceProvider`
model (`providers/models.py` 49-143) has no `service_category` or
`service_type` attribute: the service relations were renamed to the plural
many-to-many fields `service_categories` / `service_types`. -/
def getattrTruthy (p : ServiceProvider) (f : String) : Option Bool :=
  if f = "whatsapp_number" then some (p.whatsapp_number ≠ "")
  else if f = "business_name" then some (p.business_name ≠ "")
  else if f = "experience" then some (p.experience ≠ "")
  else if f = "business_address" then some (p.business_address ≠ "")
  else if f = "city" then some p.city.isSome
  else if f = "pincode" then some (p.pincode ≠ "")
  else if f = "service_description" then some (p.service_description ≠ "")
  else if f = "aadhaar_front" then some (strTruthy p.aadhaar_front)
  else if f = "aadhaar_back" then some (strTruthy p.aadhaar_back)
  else if f = "address_proof_type" then some (strTruthy p.address_proof_type)
  else if f = "address_proof" then some (strTruthy p.address_proof)
  else if f = "profile_photo" then some (strTruthy p.profile_photo)
  else if f = "skill_certificate" then some (strTruthy p.skill_certificate)
  else none

/-- Required-field list of `submit_provider_application`
(`apis/provider_views.py` lines 433-439), in source order. -/
def requiredFields : List String :=
  ["whatsapp_number", "business_name", "experience",
   "business_address", "city", "pincode",
   "service_category", "service_type", "service_description",
   "aadhaar_front", "aadhaar_back",
   "address_proof_type", "address_proof", "profile_photo"]

/-- The `for field in required_fields` loop: accumulates the names of falsy
fields, aborting with the field name at the first `getattr` that raises
`AttributeError` (Python's exception ends the whole request). -/
def collectMissing (p : ServiceProvider) : List String → Except String (List String)
  | [] => .ok []
  | f :: rest =>
    match getattrTruthy p f with
    | none => .error f
    | some b =>
      match collectMissing p rest with
      | .error e => .error e
      | .ok ms => .ok (if b then ms else f :: ms)

/-- Outcome of `submit_provider_application` (`apis/provider_views.py`
lines 402-472).  `attributeError f` stands for an uncaught Python
`AttributeError` on attribute `f`, which escapes the view (the framework
turns it into a 500 server error, not a validation response). -/
inductive SubmitResult where
  | alreadyStatus (s : VerificationStatus)
  | declarationsInvalid
  | attributeError (f : String)
  | missingFields (fields : List String)
  | noServiceAreas
  | success (p : ServiceProvider)
deriving DecidableEq, Repr

/-- Embedding of `submit_provider_application` for a user that has a provider
profile: status guard (`DRAFT`/`REJECTED` only), declaration validation,
required-field loop, service-area check, then the transition to
`PENDING_VERIFICATION` with `submitted_at = now` and the rejection reason
cleared. -/
def submitApplication (p : ServiceProvider) (decls : SubmitDecls)
    (now : Nat) : SubmitResult :=
  if ¬(p.verification_status = .DRAFT ∨ p.verification_status = .REJECTED) then
    .alreadyStatus p.verification_status
  else if ¬declsValid decls then .declarationsInvalid
  else
    match collectMissing p requiredFields with
    | .error f => .attributeError f
    | .ok missing =>
      if missing ≠ [] then .missingFields missing
      else if p.service_areas = [] then .noServiceAreas
      else .success { p with
        verification_status := .PENDING_VERIFICATION
        submitted_at := some now
        rejection_reason := "" }

/-- Form data of `verify_provider_service` (`apis/views.py` 488-574):
`profile_id`, `captain_code` and the uploaded image, each absent-or-falsy
modelled as `none`. -/
structure VerifyRequest where
  profile_id : Option Nat
  captain_code : Option String
  image : Option String
deriving Repr

/-- Reasons for the 400 responses of `verify_provider_service`. -/
inductive VerifyBadReason where
  | missingProfileId
  | missingCaptainCode
  | missingImage
  | invalidCaptainCode
  | alreadyVerified
  | stateConflict (s : VerificationStatus)
deriving DecidableEq, Repr

/-- Outcome of `verify_provider_service`. -/
inductive VerifyResult where
  | forbidden
  | badRequest (r : VerifyBadReason)
  | notFound
  | verified (p : ServiceProvider)
deriving DecidableEq, Repr

/-- Embedding of `verify_provider_service` (`apis/views.py` lines 488-574):
captain-role check (403), required form fields, captain-code match against
the caller, provider lookup, already-verified and
not-`PENDING_VERIFICATION` state conflicts (400); on success the provider is
stamped `VERIFIED` with `verified_by` = caller and `verification_date` = now.
The view additionally assigns `provider.verification_image`, which is not a
model field and is dropped by `save()`, so it is not part of the state. -/
def verifyProviderService (caller : User) (req : VerifyRequest)
    (lookup : Option ServiceProvider) (now : Nat) : VerifyResult :=
  if ¬caller.is_captain then .forbidden
  else
    match req.profile_id with
    | none => .badRequest .missingProfileId
    | some _ =>
      match req.captain_code with
      | none => .badRequest .missingCaptainCode
      | some code =>
        match req.image with
        | none => .badRequest .missingImage
        | some _ =>
          if caller.captain_code ≠ some code then .badRequest .invalidCaptainCode
          else
            match lookup with
            | none => .notFound
            | some p =>
              if p.verification_status = .VERIFIED then
                .badRequest .alreadyVerified
              else if p.verification_status ≠ .PENDING_VERIFICATION then
                .badRequest (.stateConflict p.verification_status)
              else
                .verified { p with
                  verification_status := .VERIFIED
                  verified_by := some caller.id
                  verification_date := some now }

/-- Embedding of the admin action `ServiceProviderAdmin.reject_providers`
(`providers/admin.py` lines 153-166): allowed when the caller is a captain or
an admin (`if not request.user.is_captain and not request.user.is_admin`
returns early); the queryset update moves every selected row whose status is
`PENDING_VERIFICATION` to `REJECTED`, stamping `verified_by` and
`verification_date`.  `rejection_reason` is not touched (the action's own
message says "Please add rejection reason manually"). -/
def rejectProviders (caller : User) (selection : List ServiceProvider)
    (now : Nat) : List ServiceProvider :=
  if ¬caller.is_captain ∧ ¬caller.is_admin then selection
  else
    selection.map fun p =>
      if p.verification_status = .PENDING_VERIFICATION then
        { p with
          verification_status := .REJECTED
          verified_by := some caller.id
          verification_date := some now }
      else p

/-- Row of the `registration_payments` table (`accounts/models.py` 129-149). -/
structure RegistrationPayment where
  id : Nat
  user_id : Nat
  amount : ℚ
  status : PaymentStatus
  gateway_ref : String
  gateway_order_id : String
deriving DecidableEq, Repr

/-- Relational state touched by the registration payment callback. -/
structure PaymentsDb where
  payments : List RegistrationPayment
  users : List User
deriving DecidableEq, Repr

/-- Pages rendered by the two payment callbacks (`payment_error.html`,
`payment_failure.html`, success template). -/
inductive CallbackPage where
  | errorPage (msg : String)
  | failurePage
  | successPage
deriving DecidableEq, Repr

/-- Django's `filter(pred).first()` followed by mutating `save()`: the first
list element satisfying `pred` is replaced by its image under `f`; every
other element is untouched. -/
def updateFirst (pred : α → Bool) (f : α → α) : List α → List α
  | [] => []
  | x :: xs => if pred x then f x :: xs else x :: updateFirst pred f xs

/-- Filter used by `payment_callback` to locate the payment row:
`RegistrationPayment.objects.filter(gateway_ref=..., status='PENDING')`. -/
def paymentPending (oid : String) (p : RegistrationPayment) : Bool :=
  decide (p.gateway_ref = oid ∧ p.status = .PENDING)

/-- Embedding of `payment_callback` (`apis/views.py` lines 252-322), the POST
branch.  Missing POST values are modelled as the empty string (both `None`
and `''` are falsy under the view's `all(...)` check).  HMAC-SHA256 is
abstracted as the parameter `mac`: the view only compares
`mac secret (order_id ++ "|" ++ payment_id)` with the posted signature for
equality.  On a match it looks up the first `PENDING` payment with the posted
order ref; absent such a row it renders the record-not-found error page and
changes nothing; otherwise it marks that payment `SUCCESS` (storing the
gateway payment id in `gateway_order_id`) and activates the owning user if
not already active. -/
def paymentCallback (mac : String → String → String) (secret : String)
    (db : PaymentsDb) (oid pid sig : String) : PaymentsDb × CallbackPage :=
  if oid = "" ∨ pid = "" ∨ sig = "" then
    (db, .errorPage "Missing payment details")
  else if mac secret (oid ++ "|" ++ pid) ≠ sig then
    (db, .failurePage)
  else
    match db.payments.find? (paymentPending oid) with
    | none => (db, .errorPage "Payment record not found")
    | some pay =>
      let payments := updateFirst (paymentPending oid)
        (fun p => { p with status := .SUCCESS, gateway_order_id := pid })
        db.payments
      let users := db.users.map fun u =>
        if u.id = pay.user_id ∧ ¬u.is_active then { u with is_active := true }
        else u
      ({ payments := payments, users := users }, .successPage)

/-- Calendar date, modelling the date part of a Django `DateTimeField` value
as used by the subscription callback (the time of day is carried along
unchanged by `relativedelta`, so it plays no role in the claims). -/
structure Date where
  year : Nat
  month : Nat
  day : Nat
deriving DecidableEq, Repr

/-- Gregorian leap-year rule. -/
def isLeapYear (y : Nat) : Bool :=
  (y % 4 = 0 && y % 100 ≠ 0) || y % 400 = 0

/-- Number of days of a month in a given year. -/
def daysInMonth (y m : Nat) : Nat :=
  if m = 2 then (if isLeapYear y then 29 else 28)
  else if m = 4 ∨ m = 6 ∨ m = 9 ∨ m = 11 then 30
  else 31

/-- Semantics of `dateutil.relativedelta(months=k)`: month arithmetic with
year carry, the day of month clamped to the length of the target month. -/
def addMonths (d : Date) (k : Nat) : Date :=
  let t := d.year * 12 + (d.month - 1) + k
  let y := t / 12
  let m := t % 12 + 1
  { year := y, month := m, day := min d.day (daysInMonth y m) }

/-- Semantics of `dateutil.relativedelta(years=k)`: the year is advanced and
the day clamped (Feb 29 of a leap year lands on Feb 28). -/
def addYears (d : Date) (k : Nat) : Date :=
  { year := d.year + k, month := d.month,
    day := min d.day (daysInMonth (d.year + k) d.month) }

/-- Successor day in the calendar. -/
def nextDay (d : Date) : Date :=
  if d.day < daysInMonth d.year d.month then { d with day := d.day + 1 }
  else if d.month < 12 then { year := d.year, month := d.month + 1, day := 1 }
  else { year := d.year + 1, month := 1, day := 1 }

/-- Fixed-delta day addition (what `timedelta(days=k)` would compute); used
only to distinguish calendar-aware month arithmetic from a fixed 30-day
shift. -/
def addDays (d : Date) : Nat → Date
  | 0 => d
  | k + 1 => addDays (nextDay d) k

/-- Row of the `provider_subscriptions` table
(`providers/models.py` 146-181). -/
structure ProviderSubscription where
  id : Nat
  provider_id : Nat
  plan_type : PlanType
  amount : ℚ
  listing_slots : Nat
  status : SubscriptionStatus
  gateway_order_id : String
  gateway_payment_id : String
  start_date : Option Date
  end_date : Option Date
deriving DecidableEq, Repr

/-- Outcome of `create_subscription_payment`. -/
inductive CreateSubResult where
  | notVerified
  | pendingExists (existingId : Nat)
  | created (sub : ProviderSubscription) (amount gst total : ℚ) (slots : Nat)
deriving DecidableEq, Repr

/-- Filter locating an existing pending subscription of a provider
(`ProviderSubscriptionCreateSerializer.validate`,
`apis/provider_serializers.py` 296-306). -/
def subPendingFor (providerId : Nat) (s : ProviderSubscription) : Bool :=
  decide (s.provider_id = providerId ∧ s.status = .PENDING)

/-- Embedding of `create_subscription_payment` (`apis/provider_views.py`
lines 477-577) together with `ProviderSubscriptionCreateSerializer.validate`:
the profile must be `VERIFIED` (both the view and the serializer check it);
if a `PENDING` subscription already exists for the provider the request is
rejected with a 400 carrying that subscription's id and no row is created;
otherwise `amount` is the plan base price (199 monthly / 1499 yearly),
`gst_amount = amount * 0.18`, `total_amount = amount + gst_amount`,
`listing_slots` is 1 monthly / 3 yearly, and a `PENDING` row is created with
the gateway order id obtained from Razorpay (`orderId` stands for the id the
gateway returned, `freshSubId` for the database-assigned key). -/
def createSubscriptionPayment (provider : ServiceProvider) (providerId : Nat)
    (subs : List ProviderSubscription) (plan : PlanType)
    (freshSubId : Nat) (orderId : String) :
    CreateSubResult × List ProviderSubscription :=
  if provider.verification_status ≠ .VERIFIED then (.notVerified, subs)
  else
    match subs.find? (subPendingFor providerId) with
    | some s => (.pendingExists s.id, subs)
    | none =>
      let amount : ℚ := if plan = .MONTHLY then 199 else 1499
      let slots : Nat := if plan = .MONTHLY then 1 else 3
      let gst : ℚ := amount * (18 / 100)
      let total : ℚ := amount + gst
      let sub : ProviderSubscription :=
        { id := freshSubId
          provider_id := providerId
          plan_type := plan
          amount := total
          listing_slots := slots
          status := .PENDING
          gateway_order_id := orderId
          gateway_payment_id := ""
          start_date := none
          end_date := none }
      (.created sub amount gst total slots, subs ++ [sub])

/-- Filter used by `subscription_payment_callback` to locate the row:
`ProviderSubscription.objects.filter(gateway_order_id=..., status='PENDING')`. -/
def subPendingOrder (oid : String) (s : ProviderSubscription) : Bool :=
  decide (s.gateway_order_id = oid ∧ s.status = .PENDING)

/-- Activation performed by the callback on the located row: status
`ACTIVE`, gateway payment id stored, `start_date = now`, and
`end_date = start_date + relativedelta(months=1)` for the monthly plan or
`+ relativedelta(years=1)` for the yearly plan. -/
def activateSubscription (now : Date) (pid : String)
    (s : ProviderSubscription) : ProviderSubscription :=
  { s with
    status := .ACTIVE
    gateway_payment_id := pid
    start_date := some now
    end_date := some (if s.plan_type = .MONTHLY then addMonths now 1
                      else addYears now 1) }

/-- Embedding of `subscription_payment_callback` (`apis/provider_views.py`
lines 613-683), the POST branch: field presence, signature recomputation and
comparison, lookup of the first `PENDING` subscription carrying the posted
order id (rows in any other status never match), and activation of that one
row. -/
def subscriptionCallback (mac : String → String → String) (secret : String)
    (now : Date) (subs : List ProviderSubscription) (oid pid sig : String) :
    List ProviderSubscription × CallbackPage :=
  if oid = "" ∨ pid = "" ∨ sig = "" then
    (subs, .errorPage "Missing payment details")
  else if mac secret (oid ++ "|" ++ pid) ≠ sig then
    (subs, .failurePage)
  else
    match subs.find? (subPendingOrder oid) with
    | none => (subs, .errorPage "Subscription record not found")
    | some _ =>
      (updateFirst (subPendingOrder oid) (activateSubscription now pid) subs,
       .successPage)

/-- Required-field validation of the non-partial
`ServiceProviderCreateSerializer`: the model fields declared without
`blank`/`null`/default — `whatsapp_number`, `business_name`, `experience`,
`business_address`, `pincode`, `service_description`
(`providers/models.py` 77-89) — map to required, non-blank serializer
fields, so a payload missing or blanking any of them fails `is_valid()`
with that field in `serializer.errors`.  The nullable columns (`city`, the
document uploads, `skill_certificate`) map to optional fields, and the three
id `ListField`s are required but allow the empty list (the dispatching view
always supplies them via `setlist`). -/
def missingCreateFields (d : ProfileData) : List String :=
  (if strTruthy d.whatsapp_number then [] else ["whatsapp_number"]) ++
  (if strTruthy d.business_name then [] else ["business_name"]) ++
  (if strTruthy d.experience then [] else ["experience"]) ++
  (if strTruthy d.business_address then [] else ["business_address"]) ++
  (if strTruthy d.pincode then [] else ["pincode"]) ++
  (if strTruthy d.service_description then [] else ["service_description"])

/-- Wrapper of the create branch of the profile views
(`create_provider_profile` / POST `get_provider_profile`): after the
authentication check, `ServiceProviderCreateSerializer.is_valid()` runs the
required-field validation above (plus type coercions, abstracted here since
the payload is already typed); on failure the view answers 400 with the
field errors and `create()` never runs.  No validator inspects the taxonomy
ids, so every payload passing the required-field check reaches
`serializer.save()` and is stored. -/
def createProfileView (authenticated : Bool) (userId : Nat)
    (cats typs areas : List Nat) (d : ProfileData) : EditResult :=
  if ¬authenticated then .unauthenticated
  else if missingCreateFields d ≠ [] then
    .validationFailed (missingCreateFields d)
  else .accepted (createProfile userId cats typs areas d)

/-- Parent category of a service type in the taxonomy table
(`ServiceType.category` foreign key, `providers/models.py` line 24). -/
def typeCategory (types : List ServiceTypeRow) (tid : Nat) : Option Nat :=
  (types.find? fun t => decide (t.id = tid)).map (·.category_id)

/-! Concrete sample data used by the closed counterexamples and witnesses. -/

/-- Fully populated provider profile in `DRAFT` (every required scalar field
truthy, one category/type/area each). -/
def sampleDraft : ServiceProvider :=
  { user_id := 7
    whatsapp_number := "9876543210"
    business_name := "Acme Services"
    experience := "1_TO_3"
    business_address := "12 Main Road"
    city := some 1
    pincode := "302001"
    service_categories := [1, 2]
    service_types := [10]
    service_description := "plumbing"
    service_areas := [5]
    aadhaar_front := some "docs/af.png"
    aadhaar_back := some "docs/ab.png"
    address_proof_type := some "WATER_BILL"
    address_proof := some "docs/ap.png"
    profile_photo := some "docs/pp.png"
    skill_certificate := none
    verification_status := .DRAFT
    verified_by := none
    verification_date := none
    rejection_reason := ""
    submitted_at := none }

/-- Same profile in `VERIFIED` state, stamped by captain 3. -/
def sampleVerified : ServiceProvider :=
  { sampleDraft with
    verification_status := .VERIFIED
    verified_by := some 3
    verification_date := some 50
    submitted_at := some 40 }

/-- Same profile in `PENDING_VERIFICATION` state. -/
def samplePending : ServiceProvider :=
  { sampleDraft with
    verification_status := .PENDING_VERIFICATION
    submitted_at := some 40 }

/-- Same profile in `REJECTED` state with a recorded reason. -/
def sampleRejected : ServiceProvider :=
  { sampleDraft with
    verification_status := .REJECTED
    verified_by := some 3
    verification_date := some 50
    rejection_reason := "blurry documents"
    submitted_at := some 40 }

/-- Partial edit payload renaming the business, all other fields untouched. -/
def sampleEdit : ProfileData :=
  { whatsapp_number := none
    business_name := some "Acme Renamed"
    experience := none
    business_address := none
    city := none
    pincode := none
    service_category := none
    service_type := none
    service_description := none
    service_areas := none
    aadhaar_front := none
    aadhaar_back := none
    address_proof_type := none
    address_proof := none
    profile_photo := none
    skill_certificate := none }

/-- Fully populated create payload: every required scalar field of the
create serializer present and non-blank. -/
def sampleCreatePayload : ProfileData :=
  { whatsapp_number := some "9876543210"
    business_name := some "Acme Services"
    experience := some "1_TO_3"
    business_address := some "12 Main Road"
    city := some 1
    pincode := some "302001"
    service_category := none
    service_type := none
    service_description := some "plumbing"
    service_areas := none
    aadhaar_front := some "docs/af.png"
    aadhaar_back := some "docs/ab.png"
    address_proof_type := some "WATER_BILL"
    address_proof := some "docs/ap.png"
    profile_photo := some "docs/pp.png"
    skill_certificate := none }

/-- Taxonomy table for the scenario of spec §8: type 10 belongs to
category 3. -/
def sampleTypes : List ServiceTypeRow :=
  [{ id := 10, category_id := 3, is_active := true },
   { id := 11, category_id := 1, is_active := true }]

/-- Declarations with all three boxes ticked. -/
def sampleDecls : SubmitDecls :=
  { confirm_declaration := true, accept_terms := true, consent_kyc := true }

/-- Account holding the admin role but not the captain role. -/
def sampleAdmin : User :=
  { id := 2, phone := some "8888888888", email := none, name := "Root"
    is_admin := true, is_captain := false, is_user := false
    captain_code := none, admin_verified := true, is_active := true }

/-- Captain account with captain code CAP00000042. -/
def sampleCaptain : User :=
  { id := 3, phone := some "7777777777", email := none, name := "Cap"
    is_admin := false, is_captain := true, is_user := false
    captain_code := some "CAP00000042", admin_verified := true, is_active := true }

/-- Stand-in digest function for the abstracted HMAC parameter: the callbacks
compare the recomputed digest with the posted one only for string equality,
so any injective-enough concrete function exercises both branches. -/
def sampleMac : String → String → String :=
  fun key msg => key ++ ":" ++ msg

/-- Payments table with one `PENDING` registration payment of user 9, plus
that user, inactive. -/
def samplePayDb : PaymentsDb :=
  { payments := [{ id := 1, user_id := 9, amount := 100, status := .PENDING,
                   gateway_ref := "ord9", gateway_order_id := "" }],
    users := [{ id := 9, phone := some "9999999999", email := none, name := "A",
                is_admin := false, is_captain := false, is_user := true,
                captain_code := none, admin_verified := true,
                is_active := false }] }

/-- Valid signature for order ord9 / payment pay9 under `sampleMac` with
secret sec. -/
def sampleSig : String := "sec:ord9|pay9"

/-- Payments table after a successful first callback for ord9: the payment is
`SUCCESS` and user 9 is active. -/
def samplePayDbDone : PaymentsDb :=
  { payments := [{ id := 1, user_id := 9, amount := 100, status := .SUCCESS,
                   gateway_ref := "ord9", gateway_order_id := "pay9" }],
    users := [{ id := 9, phone := some "9999999999", email := none, name := "A",
                is_admin := false, is_captain := false, is_user := true,
                captain_code := none, admin_verified := true,
                is_active := true }] }

/-- Subscription row in `PENDING` for provider 7. -/
def samplePendingSub : ProviderSubscription :=
  { id := 21, provider_id := 7, plan_type := .MONTHLY, amount := 23482/100,
    listing_slots := 1, status := .PENDING, gateway_order_id := "subord1",
    gateway_payment_id := "", start_date := none, end_date := none }

/-- Subscription row already `ACTIVE` for provider 7, with a billing period. -/
def sampleActiveSub : ProviderSubscription :=
  { id := 20, provider_id := 7, plan_type := .MONTHLY, amount := 23482/100,
    listing_slots := 1, status := .ACTIVE, gateway_order_id := "subord0",
    gateway_payment_id := "pay0", start_date := some ⟨2025, 1, 10⟩,
    end_date := some ⟨2025, 2, 10⟩ }

/-! Theorems. -/

/-- Positions whose element fails the filter are untouched by
`updateFirst` (Django's filter-first-save touches no other row). -/
theorem updateFirst_getElem_of_pred_false {α} (pred : α → Bool) (f : α → α) :
    ∀ (l : List α) (i : Nat) (s : α), l[i]? = some s → pred s = false →
    (updateFirst pred f l)[i]? = some s := by
  intro l
  induction l with
  | nil => intro i s h _; simp at h
  | cons x xs ih =>
    intro i s h hp
    cases i with
    | zero =>
      simp at h
      subst h
      simp [updateFirst, hp]
    | succ j =>
      simp at h
      by_cases hx : pred x
      · simp [updateFirst, hx, h]
      · simp only [updateFirst, hx, Bool.false_eq_true, if_false]
        simpa using ih j s h hp

/-- C1: registration is claimed to create the account with the active flag
false so that only a successful registration payment activates it; the code
leaves `is_active` at the model default `True`
(`accounts/models.py` line 45, never overridden by
`UserRegistrationSerializer.create`), so the user created by the spec's
scenario-1 input is active immediately. -/
theorem C1_registration_creates_active_user :
    (registrationCreate 1 "CAP00000001"
      { phone := some "9999999999", email := none, name := "A",
        password := some "x", is_captain := false,
        is_provider := false }).is_active = true := rfl

/-- C2 counterexample: a profile edit on an application in `VERIFIED` state
is accepted (not rejected) and mutates the application, resetting its status
to `DRAFT` — the update path has no verification-status guard. -/
theorem C2_counterexample :
    sampleVerified.verification_status = .VERIFIED ∧
    editProfileView true sampleVerified sampleEdit =
      .accepted (updateProfile sampleVerified sampleEdit) ∧
    (updateProfile sampleVerified sampleEdit).verification_status = .DRAFT ∧
    (updateProfile sampleVerified sampleEdit).business_name = "Acme Renamed" ∧
    updateProfile sampleVerified sampleEdit ≠ sampleVerified := by
  refine ⟨rfl, rfl, rfl, rfl, ?_⟩
  decide

/-- C2 (amended): the create-or-update profile operation accepts every
serializer-valid edit regardless of the application's current verification
status — no guard restricts edits to `DRAFT`/`REJECTED` — and every accepted
edit resets the status to `DRAFT` and clears `rejection_reason` and
`verified_by`. -/
theorem C2_edit_accepted_in_every_status :
    ∀ (p : ServiceProvider) (d : ProfileData),
      ∃ p', editProfileView true p d = .accepted p' ∧
        p'.verification_status = .DRAFT ∧
        p'.rejection_reason = "" ∧
        p'.verified_by = none := by
  intro p d
  exact ⟨updateProfile p d, rfl, rfl, rfl, rfl⟩

/-- C7: for an application in an allowed prior state (`DRAFT` or
`REJECTED`), any successful edit sets the status to `DRAFT`, empties
`rejection_reason` and nulls `verified_by` (idempotently when already
`DRAFT`), as `ServiceProviderUpdateSerializer.update` does unconditionally
before saving. -/
theorem C7_edit_resets_verification :
    ∀ (p : ServiceProvider) (d : ProfileData),
      p.verification_status = .DRAFT ∨ p.verification_status = .REJECTED →
      (updateProfile p d).verification_status = .DRAFT ∧
      (updateProfile p d).rejection_reason = "" ∧
      (updateProfile p d).verified_by = none := by
  intro p d _
  exact ⟨rfl, rfl, rfl⟩

/-- Witness for C7 at the concrete rejected profile. -/
theorem C7_witness :
    (sampleRejected.verification_status = .DRAFT ∨
      sampleRejected.verification_status = .REJECTED) ∧
    ((updateProfile sampleRejected sampleEdit).verification_status = .DRAFT ∧
     (updateProfile sampleRejected sampleEdit).rejection_reason = "" ∧
     (updateProfile sampleRejected sampleEdit).verified_by = none) :=
  ⟨Or.inr rfl,
   C7_edit_resets_verification sampleRejected sampleEdit (Or.inr rfl)⟩

/-- Evaluation of the submit view's required-field loop: reading the six
scalar fields succeeds, then `getattr(provider, 'service_category')` raises,
because the model's relations are the plural `service_categories` /
`service_types` and no `service_category` attribute exists. -/
theorem collectMissing_requiredFields (p : ServiceProvider) :
    collectMissing p requiredFields = .error "service_category" := by
  simp [requiredFields, collectMissing, getattrTruthy]

/-- C3: submit is claimed to succeed exactly when the state and field
conditions hold and otherwise answer with a missing-field list, never an
unhandled exception; in fact every submit that passes the status guard and
the declaration check dies with `AttributeError` on `service_category`
(`apis/provider_views.py` line 443 reads attributes the model no longer has
after the many-to-many rename), so the view never reaches the field list,
the area check, or the success transition. -/
theorem C3_submit_raises_attribute_error :
    ∀ (p : ServiceProvider) (decls : SubmitDecls) (now : Nat),
      p.verification_status = .DRAFT ∨ p.verification_status = .REJECTED →
      declsValid decls = true →
      submitApplication p decls now = .attributeError "service_category" := by
  intro p decls now hs hd
  have hcm := collectMissing_requiredFields p
  rcases hs with hs | hs <;>
    simp [submitApplication, hs, hd, hcm]

/-- Witness for C3 at a fully populated draft profile with all declarations
accepted. -/
theorem C3_witness :
    (sampleDraft.verification_status = .DRAFT ∨
      sampleDraft.verification_status = .REJECTED) ∧
    declsValid sampleDecls = true ∧
    submitApplication sampleDraft sampleDecls 100 =
      .attributeError "service_category" :=
  ⟨Or.inl rfl, rfl,
   C3_submit_raises_attribute_error sampleDraft sampleDecls 100 (Or.inl rfl) rfl⟩

/-- C4 counterexample: the scenario of spec §8 — a fully populated,
serializer-valid payload with categories `[1, 2]` and type 10 whose parent
category is 3 — is accepted and stored as-is by the profile save; no
taxonomy validation rejects it. -/
theorem C4_counterexample :
    missingCreateFields sampleCreatePayload = [] ∧
    typeCategory sampleTypes 10 = some 3 ∧
    (3 ∉ ([1, 2] : List Nat)) ∧
    createProfileView true 7 [1, 2] [10] [5] sampleCreatePayload =
      .accepted (createProfile 7 [1, 2] [10] [5] sampleCreatePayload) ∧
    (createProfile 7 [1, 2] [10] [5] sampleCreatePayload).service_types
      = [10] ∧
    (createProfile 7 [1, 2] [10] [5] sampleCreatePayload).service_categories
      = [1, 2] := by
  exact ⟨rfl, rfl, by decide, rfl, rfl, rfl⟩

/-- C4 (amended): profile-save validation checks only the presence of the
required scalar fields (on the non-partial create path); no taxonomy
consistency or active-flag validation exists — every payload passing the
required-field check is accepted with the submitted category/type/area id
lists stored unchanged, even when a selected type's parent category is
absent from the selected category set or an id is inactive. -/
theorem C4_profile_save_stores_ids_unchecked :
    ∀ (userId : Nat) (cats typs areas : List Nat) (d : ProfileData),
      missingCreateFields d = [] →
      ∃ p, createProfileView true userId cats typs areas d = .accepted p ∧
        p.service_categories = cats ∧
        p.service_types = typs ∧
        p.service_areas = areas ∧
        p.verification_status = .DRAFT := by
  intro userId cats typs areas d hd
  refine ⟨createProfile userId cats typs areas d, ?_, rfl, rfl, rfl, rfl⟩
  simp [createProfileView, hd]

/-- Witness for C4 at the fully populated payload. -/
theorem C4_amended_witness :
    missingCreateFields sampleCreatePayload = [] ∧
    ∃ p, createProfileView true 7 [1, 2] [10] [5] sampleCreatePayload =
        .accepted p ∧
      p.service_categories = [1, 2] ∧
      p.service_types = [10] ∧
      p.service_areas = [5] ∧
      p.verification_status = .DRAFT :=
  ⟨rfl,
   C4_profile_save_stores_ids_unchecked 7 [1, 2] [10] [5]
     sampleCreatePayload rfl⟩

/-- C5 counterexample: the admin reject action succeeds for an account that
holds the admin role but not the captain role, and it records no rejection
reason — both against the claim that verify/reject succeed only for captains
and that a rejection reason is required. -/
theorem C5_counterexample :
    sampleAdmin.is_captain = false ∧
    samplePending.verification_status = .PENDING_VERIFICATION ∧
    rejectProviders sampleAdmin [samplePending] 100 =
      [{ samplePending with
          verification_status := .REJECTED
          verified_by := some 2
          verification_date := some 100 }] ∧
    ({ samplePending with
        verification_status := .REJECTED
        verified_by := some 2
        verification_date := some 100 } : ServiceProvider).rejection_reason
      = "" := by
  refine ⟨rfl, rfl, ?_, rfl⟩
  decide

/-- C5 (amended): the API verify succeeds only for a captain whose captain
code matches and only on `PENDING_VERIFICATION` (a `DRAFT` application gets a
state-conflict 400), stamping `verified_by` with the caller and
`verification_date` with now; the admin reject action is available to captain
or admin accounts and moves exactly the `PENDING_VERIFICATION` rows of the
selection to `REJECTED` with the same stamping, without requiring (or
setting) a rejection reason. -/
theorem C5_verify_reject_transitions :
    (∀ (u : User) (req : VerifyRequest) (lk : Option ServiceProvider)
        (now : Nat), u.is_captain = false →
        verifyProviderService u req lk now = .forbidden) ∧
    (∀ (u : User) (pid : Nat) (c img : String) (p : ServiceProvider)
        (now : Nat),
        u.is_captain = true → u.captain_code = some c →
        p.verification_status = .DRAFT →
        verifyProviderService u ⟨some pid, some c, some img⟩ (some p) now =
          .badRequest (.stateConflict .DRAFT)) ∧
    (∀ (u : User) (pid : Nat) (c img : String) (p : ServiceProvider)
        (now : Nat),
        u.is_captain = true → u.captain_code = some c →
        p.verification_status = .PENDING_VERIFICATION →
        verifyProviderService u ⟨some pid, some c, some img⟩ (some p) now =
          .verified { p with
            verification_status := .VERIFIED
            verified_by := some u.id
            verification_date := some now }) ∧
    (∀ (u : User) (sel : List ServiceProvider) (now : Nat),
        u.is_captain = true ∨ u.is_admin = true →
        rejectProviders u sel now = sel.map fun p =>
          if p.verification_status = .PENDING_VERIFICATION then
            { p with
              verification_status := .REJECTED
              verified_by := some u.id
              verification_date := some now }
          else p) := by
  refine ⟨?_, ?_, ?_, ?_⟩
  · intro u req lk now h
    simp [verifyProviderService, h]
  · intro u pid c img p now hcap hcode hp
    simp [verifyProviderService, hcap, hcode, hp]
  · intro u pid c img p now hcap hcode hp
    simp [verifyProviderService, hcap, hcode, hp]
  · intro u sel now h
    rcases h with h | h <;> simp [rejectProviders, h]

/-- Witness for C5 at the concrete captain: verify on a `DRAFT` application
answers with the state conflict. -/
theorem C5_witness :
    sampleCaptain.is_captain = true ∧
    sampleCaptain.captain_code = some "CAP00000042" ∧
    sampleDraft.verification_status = .DRAFT ∧
    verifyProviderService sampleCaptain
        ⟨some 1, some "CAP00000042", some "img.png"⟩ (some sampleDraft) 100 =
      .badRequest (.stateConflict .DRAFT) :=
  ⟨rfl, rfl, rfl,
   C5_verify_reject_transitions.2.1 sampleCaptain 1 "CAP00000042" "img.png"
     sampleDraft 100 rfl rfl rfl⟩

/-- C6 counterexample: replaying the registration-payment callback with the
same valid signature after a successful first call leaves the state unchanged
but renders the record-not-found error page — the duplicate does not "return
success both times". -/
theorem C6_counterexample :
    (paymentCallback sampleMac "sec" samplePayDb "ord9" "pay9" sampleSig).2 =
      .successPage ∧
    (paymentCallback sampleMac "sec" samplePayDb "ord9" "pay9" sampleSig).1 =
      samplePayDbDone ∧
    paymentCallback sampleMac "sec" samplePayDbDone "ord9" "pay9" sampleSig =
      (samplePayDbDone, .errorPage "Payment record not found") := by
  exact ⟨rfl, rfl, rfl⟩

/-- C6 (amended): a callback carrying matching POST fields and a valid
signature for which no `PENDING` payment with that order ref exists — in
particular any replay after the payment reached `SUCCESS` — leaves the
payments and users tables unchanged, but it answers with the
record-not-found error page, not with success; only the state half of the
claimed idempotence holds. -/
theorem C6_replay_leaves_state_but_errors :
    ∀ (mac : String → String → String) (secret : String) (db : PaymentsDb)
      (oid pid sig : String),
      oid ≠ "" → pid ≠ "" → sig ≠ "" →
      mac secret (oid ++ "|" ++ pid) = sig →
      (∀ p ∈ db.payments, p.gateway_ref = oid → p.status ≠ .PENDING) →
      paymentCallback mac secret db oid pid sig =
        (db, .errorPage "Payment record not found") := by
  intro mac secret db oid pid sig ho hp hsg hmac hnone
  have hfind : db.payments.find? (paymentPending oid) = none := by
    rw [List.find?_eq_none]
    intro x hx
    simp only [paymentPending, decide_eq_true_eq, not_and]
    intro href
    exact hnone x hx href
  simp [paymentCallback, ho, hp, hsg, hmac, hfind]

/-- Witness for C6 at the concrete already-successful payment table. -/
theorem C6_witness :
    (∀ p ∈ samplePayDbDone.payments, p.gateway_ref = "ord9" →
      p.status ≠ .PENDING) ∧
    paymentCallback sampleMac "sec" samplePayDbDone "ord9" "pay9" sampleSig =
      (samplePayDbDone, .errorPage "Payment record not found") :=
  ⟨by decide,
   C6_replay_leaves_state_but_errors sampleMac "sec" samplePayDbDone
     "ord9" "pay9" sampleSig (by decide) (by decide) (by decide) rfl
     (by decide)⟩

/-- C8: a subscription-creation request made while a `PENDING` subscription
already exists for the provider creates no new row and answers with the
existing pending subscription's id
(`ProviderSubscriptionCreateSerializer.validate` raises with that id and the
view returns it in the 400 body). -/
theorem C8_pending_blocks_new_subscription :
    ∀ (provider : ServiceProvider) (providerId : Nat)
      (subs : List ProviderSubscription) (plan : PlanType)
      (freshSubId : Nat) (orderId : String) (s : ProviderSubscription),
      provider.verification_status = .VERIFIED →
      s ∈ subs → s.provider_id = providerId → s.status = .PENDING →
      ∃ s₀ ∈ subs, s₀.provider_id = providerId ∧ s₀.status = .PENDING ∧
        createSubscriptionPayment provider providerId subs plan freshSubId
          orderId = (.pendingExists s₀.id, subs) := by
  intro provider providerId subs plan fid oid s hv hmem hpid hst
  have hsome : (subs.find? (subPendingFor providerId)).isSome := by
    rw [List.find?_isSome]
    exact ⟨s, hmem, by simp [subPendingFor, hpid, hst]⟩
  obtain ⟨s₀, hfind⟩ := Option.isSome_iff_exists.mp hsome
  have hp₀ := List.find?_some hfind
  have hmem₀ := List.mem_of_find?_eq_some hfind
  simp only [subPendingFor, decide_eq_true_eq] at hp₀
  refine ⟨s₀, hmem₀, hp₀.1, hp₀.2, ?_⟩
  simp [createSubscriptionPayment, hv, hfind]

/-- Witness for C8: with an `ACTIVE` and a `PENDING` row on file, the
request is answered with the pending row's id and the table is unchanged. -/
theorem C8_witness :
    sampleVerified.verification_status = .VERIFIED ∧
    samplePendingSub ∈ [sampleActiveSub, samplePendingSub] ∧
    samplePendingSub.provider_id = 7 ∧
    samplePendingSub.status = .PENDING ∧
    ∃ s₀ ∈ [sampleActiveSub, samplePendingSub], s₀.provider_id = 7 ∧
      s₀.status = .PENDING ∧
      createSubscriptionPayment sampleVerified 7
        [sampleActiveSub, samplePendingSub] .MONTHLY 99 "newOrd" =
        (.pendingExists s₀.id, [sampleActiveSub, samplePendingSub]) :=
  ⟨rfl, by simp, rfl, rfl,
   C8_pending_blocks_new_subscription sampleVerified 7
     [sampleActiveSub, samplePendingSub] .MONTHLY 99 "newOrd"
     samplePendingSub rfl (by simp) rfl rfl⟩

/-- C9: a `MONTHLY` request by a `VERIFIED` provider (with no pending
subscription) is charged `199 + 199 * 0.18 = 199 * 1.18 = 234.82` with one
listing slot; a signature-verified confirmation sets
`end_date = start_date + relativedelta(months=1)` for `MONTHLY` and
`+ relativedelta(years=1)` for `YEARLY`; and that month arithmetic is
calendar-aware (clamping to short months, not a fixed 30-day shift). -/
theorem C9_pricing_and_calendar_period :
    (∀ (provider : ServiceProvider) (providerId : Nat)
        (subs : List ProviderSubscription) (freshSubId : Nat)
        (orderId : String),
        provider.verification_status = .VERIFIED →
        subs.find? (subPendingFor providerId) = none →
        ∃ sub, createSubscriptionPayment provider providerId subs .MONTHLY
            freshSubId orderId =
            (.created sub 199 (199 * (18 / 100)) (199 + 199 * (18 / 100)) 1,
             subs ++ [sub]) ∧
          sub.amount = 199 * (118 / 100) ∧
          sub.amount = 23482 / 100 ∧
          sub.listing_slots = 1) ∧
    (∀ (mac : String → String → String) (secret : String) (now : Date)
        (s : ProviderSubscription) (oid pid sig : String),
        oid ≠ "" → pid ≠ "" → sig ≠ "" →
        mac secret (oid ++ "|" ++ pid) = sig →
        s.gateway_order_id = oid → s.status = .PENDING →
        s.plan_type = .MONTHLY →
        subscriptionCallback mac secret now [s] oid pid sig =
          ([{ s with
              status := .ACTIVE
              gateway_payment_id := pid
              start_date := some now
              end_date := some (addMonths now 1) }], .successPage)) ∧
    (∀ (mac : String → String → String) (secret : String) (now : Date)
        (s : ProviderSubscription) (oid pid sig : String),
        oid ≠ "" → pid ≠ "" → sig ≠ "" →
        mac secret (oid ++ "|" ++ pid) = sig →
        s.gateway_order_id = oid → s.status = .PENDING →
        s.plan_type = .YEARLY →
        subscriptionCallback mac secret now [s] oid pid sig =
          ([{ s with
              status := .ACTIVE
              gateway_payment_id := pid
              start_date := some now
              end_date := some (addYears now 1) }], .successPage)) ∧
    (addMonths ⟨2025, 1, 31⟩ 1 = ⟨2025, 2, 28⟩ ∧
     addMonths ⟨2025, 2, 1⟩ 1 ≠ addDays ⟨2025, 2, 1⟩ 30) := by
  refine ⟨?_, ?_, ?_, by decide, by set_option maxRecDepth 4000 in decide⟩
  · intro provider providerId subs fid oid hv hfind
    refine ⟨{ id := fid
              provider_id := providerId
              plan_type := .MONTHLY
              amount := 199 + 199 * (18 / 100)
              listing_slots := 1
              status := .PENDING
              gateway_order_id := oid
              gateway_payment_id := ""
              start_date := none
              end_date := none }, ?_, by norm_num, by norm_num, rfl⟩
    simp [createSubscriptionPayment, hv, hfind]
  · intro mac secret now s oid pid sig ho hp hsg hmac hoid hst hplan
    have hpred : subPendingOrder oid s = true := by
      simp [subPendingOrder, hoid, hst]
    simp [subscriptionCallback, ho, hp, hsg, hmac, List.find?_cons, hpred,
      updateFirst, activateSubscription, hplan]
  · intro mac secret now s oid pid sig ho hp hsg hmac hoid hst hplan
    have hpred : subPendingOrder oid s = true := by
      simp [subPendingOrder, hoid, hst]
    simp [subscriptionCallback, ho, hp, hsg, hmac, List.find?_cons, hpred,
      updateFirst, activateSubscription, hplan]

/-- Witness for C9 at an empty subscription table. -/
theorem C9_witness :
    sampleVerified.verification_status = .VERIFIED ∧
    ([] : List ProviderSubscription).find? (subPendingFor 7) = none ∧
    ∃ sub, createSubscriptionPayment sampleVerified 7 [] .MONTHLY 99 "ord1" =
        (.created sub 199 (199 * (18 / 100)) (199 + 199 * (18 / 100)) 1,
         [] ++ [sub]) ∧
      sub.amount = 199 * (118 / 100) ∧
      sub.amount = 23482 / 100 ∧
      sub.listing_slots = 1 :=
  ⟨rfl, rfl,
   C9_pricing_and_calendar_period.1 sampleVerified 7 [] 99 "ord1" rfl rfl⟩

/-- C10 (implicit): the subscription payment callback looks rows up with
`status='PENDING'` in the filter, so a subscription in any other status
(`ACTIVE`, `EXPIRED`, `CANCELLED`) is never the row it updates: whatever the
posted order id and signature, such a row is bit-for-bit unchanged —
a replayed callback cannot overwrite an active subscription's billing
period. -/
theorem C10_callback_preserves_non_pending :
    ∀ (mac : String → String → String) (secret : String) (now : Date)
      (subs : List ProviderSubscription) (oid pid sig : String)
      (i : Nat) (s : ProviderSubscription),
      subs[i]? = some s → s.status ≠ .PENDING →
      ((subscriptionCallback mac secret now subs oid pid sig).1)[i]? =
        some s := by
  intro mac secret now subs oid pid sig i s hi hs
  have hpred : subPendingOrder oid s = false := by
    simp only [subPendingOrder, decide_eq_false_iff_not, not_and]
    intro _
    exact hs
  unfold subscriptionCallback
  split
  · simpa using hi
  · split
    · simpa using hi
    · split
      · simpa using hi
      · simpa using
          updateFirst_getElem_of_pred_false (subPendingOrder oid)
            (activateSubscription now pid) subs i s hi hpred

/-- Witness for C10: a valid-signature callback for the order id of an
already `ACTIVE` subscription leaves that subscription unchanged. -/
theorem C10_witness :
    ([sampleActiveSub] : List ProviderSubscription)[0]? =
      some sampleActiveSub ∧
    sampleActiveSub.status ≠ .PENDING ∧
    ((subscriptionCallback sampleMac "sec" ⟨2025, 3, 1⟩ [sampleActiveSub]
        "subord0" "pay1" "sec:subord0|pay1").1)[0]? = some sampleActiveSub :=
  ⟨rfl, by decide,
   C10_callback_preserves_non_pending sampleMac "sec" ⟨2025, 3, 1⟩
     [sampleActiveSub] "subord0" "pay1" "sec:subord0|pay1" 0
     sampleActiveSub rfl (by decide)⟩

end Bharat
